import Mathlib

set_option maxRecDepth 1000000

/-!
Shallow embedding of the progress-tracking and RAG calculation core of the
smon repository (src/core/utils_time.py, src/core/views.py,
src/core/api_views.py, src/progress/models.py).

Python dates are modelled as year/month/day triples over the proleptic
Gregorian calendar; timedelta arithmetic goes through a rata-die (days
since civil epoch) conversion, and dateutil relativedelta month arithmetic
is modelled with day-of-month clamping exactly as dateutil performs it.
Python Decimal values are modelled as exact rationals.
-/

namespace SMon

/-- A calendar date, as Python datetime.date: year, month (1..12), day (1..31). -/
structure Date where
  year : Nat
  month : Nat
  day : Nat
deriving DecidableEq, Repr

/-- Python date comparison a < b (dates compare by (year, month, day)). -/
def Date.lt (a b : Date) : Bool :=
  a.year < b.year ||
    (a.year == b.year && (a.month < b.month ||
      (a.month == b.month && a.day < b.day)))

/-- Python date comparison a <= b. -/
def Date.le (a b : Date) : Bool :=
  a == b || Date.lt a b

/-- Gregorian leap-year test. -/
def isLeap (y : Nat) : Bool :=
  (y % 4 == 0 && y % 100 != 0) || y % 400 == 0

/-- Number of days in a Gregorian month. -/
def daysInMonth (y m : Nat) : Nat :=
  if m == 2 then (if isLeap y then 29 else 28)
  else if m == 4 || m == 6 || m == 9 || m == 11 then 30
  else 31

/-- Days since the civil epoch 1970-01-01 (negative before), the standard
days-from-civil algorithm; Python date arithmetic (toordinal, timedelta)
is an offset of this. -/
def toRataDie (dt : Date) : Int :=
  let y : Int := (dt.year : Int) - (if dt.month ≤ 2 then 1 else 0)
  let m : Int := dt.month
  let d : Int := dt.day
  let era : Int := (if 0 ≤ y then y else y - 399).tdiv 400
  let yoe : Int := y - era * 400
  let doy : Int := (153 * (m + (if 2 < m then -3 else 9)) + 2).tdiv 5 + d - 1
  let doe : Int := yoe * 365 + yoe.tdiv 4 - yoe.tdiv 100 + doy
  era * 146097 + doe - 719468

/-- Inverse of toRataDie, the standard civil-from-days algorithm. -/
def ofRataDie (z0 : Int) : Date :=
  let z : Int := z0 + 719468
  let era : Int := (if 0 ≤ z then z else z - 146096).tdiv 146097
  let doe : Int := z - era * 146097
  let yoe : Int := (doe - doe.tdiv 1460 + doe.tdiv 36524 - doe.tdiv 146096).tdiv 365
  let y : Int := yoe + era * 400
  let doy : Int := doe - (365 * yoe + yoe.tdiv 4 - yoe.tdiv 100)
  let mp : Int := (5 * doy + 2).tdiv 153
  let d : Int := doy - (153 * mp + 2).tdiv 5 + 1
  let m : Int := mp + (if mp < 10 then 3 else -9)
  { year := (y + (if m ≤ 2 then 1 else 0)).toNat, month := m.toNat, day := d.toNat }

/-- Python date + timedelta(days=k). -/
def addDays (d : Date) (k : Int) : Date :=
  ofRataDie (toRataDie d + k)

/-- Python (a - b).days for two dates. -/
def daysBetween (a b : Date) : Int :=
  toRataDie a - toRataDie b

/-- dateutil d + relativedelta(months=k): shift the month index by k and
clamp the day of month to the length of the resulting month. -/
def addMonths (d : Date) (k : Int) : Date :=
  let t : Int := (d.year : Int) * 12 + ((d.month : Int) - 1) + k
  let yn : Nat := (t / 12).toNat
  let mn : Nat := (t % 12 + 1).toNat
  { year := yn, month := mn, day := min d.day (daysInMonth yn mn) }

/-- dateutil relativedelta(a, b) whole-month component (years*12 + months)
for a >= b: the raw month-index difference, decremented by one when adding
that many months to b (with day clamping) overshoots a. -/
def monthsBetween (a b : Date) : Int :=
  let raw : Int := ((a.year : Int) - b.year) * 12 + ((a.month : Int) - b.month)
  if Date.lt a (addMonths b raw) then raw - 1 else raw

/-- The smaller of two dates, Python min(a, b). -/
def minDate (a b : Date) : Date :=
  if Date.lt b a then b else a

/-- core.models.FinancialYear: the fields the calculation core reads. -/
structure FinancialYear where
  start_date : Date
  end_date : Date
deriving DecidableEq, Repr

/-- core.utils_time.months_elapsed_in_fy: months elapsed in the financial
year up to as_of inclusive, clamped within the year; 0 before it starts. -/
def months_elapsed_in_fy (start fy_end as_of : Date) : Int :=
  if Date.lt as_of start then 0
  else monthsBetween (if Date.lt fy_end as_of then fy_end else as_of) start + 1

/-- core.utils_time.quarter_end_for: end date of the quarter of the
financial year containing as_of (first quarter before the year starts),
clamped to the year end. -/
def quarter_end_for (fin_year : FinancialYear) (as_of : Date) : Date :=
  let start := fin_year.start_date
  let e := fin_year.end_date
  let m := months_elapsed_in_fy start e as_of
  let q_index : Int := if m ≤ 0 then 1 else min 4 ((m + 2) / 3)
  let q_start := addMonths start ((q_index - 1) * 3)
  let q_end := addDays (addMonths q_start 3) (-1)
  if Date.lt e q_end then e else q_end

/-- The QUARTER_LOCK entry of settings.KPA_SETTINGS: ENABLED (absent means
false) and GRACE_DAYS (absent means 14). -/
structure QuarterLockConfig where
  enabled : Bool := false
  grace_days : Int := 14
deriving DecidableEq, Repr

/-- core.utils_time.is_period_locked: false when locking is disabled, else
true when today is strictly later than the quarter end plus the grace days. -/
def is_period_locked (cfg : QuarterLockConfig) (fin_year : FinancialYear)
    (period_end today : Date) : Bool :=
  if !cfg.enabled then false
  else Date.lt (addDays (quarter_end_for fin_year period_end) cfg.grace_days) today

/-- progress.models.ProgressUpdate: the fields the calculation core and the
draft upsert read or write. -/
structure ProgressUpdate where
  target_id : Nat
  period_start : Date
  period_end : Date
  actual_value : ℚ
  is_submitted : Bool
  is_active : Bool
deriving DecidableEq, Repr

/-- progress.models.Target: the fields the calculation core reads. The
value and due_date are optional because Target.ytd_target guards both
against None (partially constructed admin rows). progress_updates is the
reverse relation holding the rows of this target. -/
structure Target where
  value : Option ℚ
  due_date : Option Date
  periodicity : String
  green_threshold : ℚ
  amber_threshold : ℚ
  progress_updates : List ProgressUpdate
deriving DecidableEq, Repr

/-- The row with the greatest period_end, as order_by descending period_end
followed by first (none on an empty list). -/
def latestByPeriodEnd : List ProgressUpdate → Option ProgressUpdate
  | [] => none
  | u :: us =>
    match latestByPeriodEnd us with
    | none => some u
    | some v => if Date.lt u.period_end v.period_end then some v else some u

/-- progress.models.Target.get_latest_progress: most recent active update. -/
def Target.get_latest_progress (t : Target) : Option ProgressUpdate :=
  latestByPeriodEnd (t.progress_updates.filter (fun u => u.is_active))

/-- progress.models.Target.ytd_target: year-to-date target from the current
date and the periodicity, 0 when value or due_date is missing, the full
value past the due date; ANNUAL prorates by days in the hardcoded SA fiscal
year of the current calendar year, QUARTERLY and MONTHLY by periods elapsed
since April. -/
def Target.ytd_target (t : Target) (today : Date) : ℚ :=
  match t.value with
  | none => 0
  | some v =>
    match t.due_date with
    | none => 0
    | some dd =>
      if Date.lt dd today then v
      else if t.periodicity == "ANNUAL" then
        let start_of_year : Date := { year := today.year, month := 4, day := 1 }
        let end_of_year : Date := { year := today.year + 1, month := 3, day := 31 }
        if Date.lt today start_of_year then 0
        else
          let days_elapsed : Int := daysBetween today start_of_year
          let total_days : Int := daysBetween end_of_year start_of_year
          v * ((days_elapsed : ℚ) / (total_days : ℚ))
      else if t.periodicity == "QUARTERLY" then
        let quarters_elapsed : Nat :=
          if 4 ≤ today.month then (today.month - 4) / 3 + 1 else (today.month + 8) / 3 + 1
        (v / 4) * (min quarters_elapsed 4 : ℚ)
      else if t.periodicity == "MONTHLY" then
        let m_elapsed : Nat :=
          if 4 ≤ today.month then today.month - 3 else today.month + 9
        (v / 12) * (min m_elapsed 12 : ℚ)
      else v

/-- progress.models.Target.calculate_rag_status: GREY when no actual value
is given and no active update exists, GREY when the YTD target is zero,
else GREEN, AMBER or RED from the percentage against the thresholds. -/
def Target.calculate_rag_status (t : Target) (today : Date) (actual? : Option ℚ) : String :=
  let resolved : Option ℚ :=
    match actual? with
    | some a => some a
    | none => (t.get_latest_progress).map (fun u => u.actual_value)
  match resolved with
  | none => "GREY"
  | some actual_value =>
    let ytd := t.ytd_target today
    if ytd == 0 then "GREY"
    else
      let percentage := (actual_value / ytd) * 100
      if t.green_threshold ≤ percentage then "GREEN"
      else if t.amber_threshold ≤ percentage then "AMBER"
      else "RED"

/-- True when the RAG string is RED or AMBER, the membership test of
progress.models.ProgressUpdate.is_evidence_required. -/
def ragIsRedAmber (s : String) : Bool :=
  s == "RED" || s == "AMBER"

/-- Insert a row into a list sorted by ascending period_end (stable). -/
def insertByPeriodEnd (u : ProgressUpdate) : List ProgressUpdate → List ProgressUpdate
  | [] => [u]
  | v :: vs =>
    if Date.lt v.period_end u.period_end then v :: insertByPeriodEnd u vs
    else u :: v :: vs

/-- Sort rows by ascending period_end, as order_by period_end. -/
def sortByPeriodEnd (l : List ProgressUpdate) : List ProgressUpdate :=
  l.foldr insertByPeriodEnd []

/-- The consecutive RED/AMBER counter walk of is_evidence_required: add one
for each row whose RAG is RED or AMBER, reset to zero on any other row. -/
def consecRedAmberCount (t : Target) (today : Date) (l : List ProgressUpdate) : Nat :=
  l.foldl
    (fun c u =>
      if ragIsRedAmber (t.calculate_rag_status today (some u.actual_value)) then c + 1 else 0)
    0

/-- progress.models.ProgressUpdate.is_evidence_required: when the own RAG
status of the update is RED or AMBER, walk the active updates of the same
target with period_end between period_end minus evidence_months months and
period_end, in chronological order, counting consecutive RED/AMBER rows
with a reset on any other row, and require evidence when the final count
reaches evidence_months; otherwise false. -/
def ProgressUpdate.is_evidence_required (t : Target) (today : Date)
    (evidence_months : Nat) (u : ProgressUpdate) : Bool :=
  if ragIsRedAmber (t.calculate_rag_status today (some u.actual_value)) then
    let cutoff_date := addMonths u.period_end (-(evidence_months : Int))
    let consecutive_updates := sortByPeriodEnd
      (t.progress_updates.filter (fun v =>
        v.is_active && Date.le cutoff_date v.period_end && Date.le v.period_end u.period_end))
    decide (evidence_months ≤ consecRedAmberCount t today consecutive_updates)
  else false

/-- core.views.months_elapsed: same computation as months_elapsed_in_fy on
the bounds of the financial year. -/
def months_elapsed (fin_year : FinancialYear) (as_of : Date) : Int :=
  months_elapsed_in_fy fin_year.start_date fin_year.end_date as_of

/-- core.views.quarters_elapsed: ceiling division of the elapsed months by
three, at most 4. -/
def quarters_elapsed (fin_year : FinancialYear) (as_of : Date) : Int :=
  min 4 ((months_elapsed fin_year as_of + 2) / 3)

/-- core.views.ytd_target_value: the proportion of the target value
attributable to elapsed time by periodicity; none models the exception a
missing value would raise. -/
def ytd_target_value (target : Target) (fin_year : FinancialYear) (as_of : Date) : Option ℚ :=
  target.value.map (fun total =>
    if target.periodicity == "ANNUAL" then
      let start := fin_year.start_date
      let e := fin_year.end_date
      let end_cut := minDate e as_of
      let elapsed_days : Int := daysBetween end_cut start + 1
      let total_days : Int := daysBetween e start + 1
      if total_days == 0 then 0 else (total * (elapsed_days : ℚ)) / (total_days : ℚ)
    else if target.periodicity == "MONTHLY" then
      (total / 12) * ((months_elapsed fin_year as_of : ℚ))
    else if target.periodicity == "QUARTERLY" then
      (total / 4) * ((quarters_elapsed fin_year as_of : ℚ))
    else total)

/-- core.views.compute_percent: zero on a zero (falsy) YTD target, else the
ratio times 100. -/
def compute_percent (ytd_actual ytd_target : ℚ) : ℚ :=
  if ytd_target == 0 then 0 else (ytd_actual / ytd_target) * 100

/-- core.views.compute_rag_from_percent: thresholds 95 and 80 when no
target is supplied, else the thresholds of the target; GREEN at or above
green, AMBER at or above amber, RED below. -/
def compute_rag_from_percent (percent : ℚ) (target : Option Target) : String :=
  let green : ℚ := match target with | some t => t.green_threshold | none => 95
  let amber : ℚ := match target with | some t => t.amber_threshold | none => 80
  if green ≤ percent then "GREEN"
  else if amber ≤ percent then "AMBER"
  else "RED"

/-- progress.models.CostLine: the fields compute_item_spend reads. -/
structure CostLine where
  cost_period_start : Date
  cost_period_end : Date
  actual_spend : Option ℚ
  is_active : Bool
deriving DecidableEq, Repr

/-- core.models.OperationalPlanItem: the fields compute_item_spend reads;
cost_lines is the reverse relation of the item. -/
structure OperationalPlanItem where
  input_cost : Option ℚ
  output_cost : Option ℚ
  cost_lines : List CostLine
deriving DecidableEq, Repr

/-- core.views.compute_item_spend: planned is input cost plus output cost
(missing read as zero), actual sums the active cost lines lying inside the
financial year window cut at as_of, and the spend percentage is zero when
planned is zero, else actual over planned times 100. -/
def compute_item_spend (plan_item : OperationalPlanItem) (fin_year : FinancialYear)
    (as_of : Date) : ℚ × ℚ × ℚ :=
  let planned := plan_item.input_cost.getD 0 + plan_item.output_cost.getD 0
  let start := fin_year.start_date
  let end_cut := minDate fin_year.end_date as_of
  let qs := plan_item.cost_lines.filter (fun cl =>
    Date.le start cl.cost_period_start && Date.le cl.cost_period_end end_cut && cl.is_active)
  let actual := qs.foldl (fun s cl => s + cl.actual_spend.getD 0) 0
  let spend_pct := if planned == 0 then 0 else (actual / planned) * 100
  (planned, actual, spend_pct)

/-- A structurally valid calendar date: month in 1..12, day within the month. -/
def Date.valid (d : Date) : Bool :=
  1 ≤ d.month && d.month ≤ 12 && 1 ≤ d.day && d.day ≤ daysInMonth d.year d.month

/-- Split a character list on the dash separator, as Python split does. -/
def splitDash : List Char → List (List Char)
  | [] => [[]]
  | c :: rest =>
    let r := splitDash rest
    if c == '-' then [] :: r
    else
      match r with
      | [] => [[c]]
      | h :: t => (c :: h) :: t

/-- Numeric value of a nonempty string of ASCII digits, none otherwise. -/
def digitsVal (cs : List Char) : Option Nat :=
  if cs.isEmpty || !cs.all Char.isDigit then none
  else some (cs.foldl (fun acc c => acc * 10 + (c.toNat - 48)) 0)

/-- django.utils.dateparse.parse_date, the parser behind the DateField the
serializer validates period_end with: groups of 4, 1-2 and 1-2 digits
separated by dashes, then the date constructor (none on an invalid
calendar date). -/
def parse_date (s : String) : Option Date :=
  match splitDash s.toList with
  | [ys, ms, ds] =>
    if ys.length == 4 && (ms.length == 1 || ms.length == 2) &&
        (ds.length == 1 || ds.length == 2) then
      match digitsVal ys, digitsVal ms, digitsVal ds with
      | some y, some m, some d =>
        if y != 0 && Date.valid ⟨y, m, d⟩ then some ⟨y, m, d⟩ else none
      | _, _, _ => none
    else none
  | _ => none

/-- datetime.fromisoformat on a date string: the date-only ISO format with
zero-padded two-digit month and day. Later Python versions accept further
ISO-8601 forms, but none of those pass parse_date, so on every payload the
serializer accepts this is exact; notably a non-padded month or day raises
in every Python version. -/
def fromisoformatDate (s : String) : Option Date :=
  match splitDash s.toList with
  | [ys, ms, ds] =>
    if ys.length == 4 && ms.length == 2 && ds.length == 2 then
      match digitsVal ys, digitsVal ms, digitsVal ds with
      | some y, some m, some d =>
        if y != 0 && Date.valid ⟨y, m, d⟩ then some ⟨y, m, d⟩ else none
      | _, _, _ => none
    else none
  | _ => none

/-- The draft-save payload on the authorised path: period_end is the raw
client string exactly as request.data.get returns it (the endpoint parses
it twice: with fromisoformat for the lock gate and with the serializer
DateField, that is parse_date, for the upsert); the other fields are the
serializer-validated values, with is_submitted as sent by the client
before the endpoint overrides it. -/
structure DraftPayload where
  target_id : Nat
  period_start : Date
  period_end : String
  actual_value : ℚ
  is_submitted : Bool
deriving DecidableEq, Repr

/-- The error responses of the modelled draft paths: locked is the HTTP
423 response, badRequest the HTTP 400 serializer-validation response. -/
inductive DraftError where
  | locked
  | badRequest
deriving DecidableEq, Repr

/-- The existing-draft lookup filter of save_draft: same target and period
bounds, not submitted, active. -/
def matchesDraftKey (tid : Nat) (ps pe : Date) (r : ProgressUpdate) : Bool :=
  r.target_id == tid && r.period_start == ps && r.period_end == pe &&
    !r.is_submitted && r.is_active

/-- Overwrite the serializer fields of an existing row with the validated
payload data (is_submitted was forced to false before validation); pe is
the serializer-parsed period_end. -/
def applyDraft (p : DraftPayload) (pe : Date) (r : ProgressUpdate) : ProgressUpdate :=
  { r with
    target_id := p.target_id
    period_start := p.period_start
    period_end := pe
    actual_value := p.actual_value
    is_submitted := false }

/-- Update the first row matching the draft key in place, leaving every
other row untouched. -/
def updateFirstDraft (p : DraftPayload) (pe : Date) :
    List ProgressUpdate → List ProgressUpdate
  | [] => []
  | r :: rs =>
    if matchesDraftKey p.target_id p.period_start pe r
    then applyDraft p pe r :: rs
    else r :: updateFirstDraft p pe rs

/-- The row created by save_draft when no existing draft matches: a fresh
unsubmitted active row from the validated payload. -/
def newDraftRow (p : DraftPayload) (pe : Date) : ProgressUpdate :=
  { target_id := p.target_id
    period_start := p.period_start
    period_end := pe
    actual_value := p.actual_value
    is_submitted := false
    is_active := true }

/-- The remainder of save_draft after the lock gate: serializer validation
of the raw period_end (HTTP 400 on failure), then force is_submitted to
false and upsert by the (target, period_start, period_end) key among
unsubmitted active rows, updating the matching row in place when one
exists and inserting a fresh row otherwise. -/
def save_draft_upsert (p : DraftPayload) (db : List ProgressUpdate) :
    Except DraftError (List ProgressUpdate) :=
  match parse_date p.period_end with
  | none => Except.error DraftError.badRequest
  | some pe =>
    if (db.filter (matchesDraftKey p.target_id p.period_start pe)).isEmpty then
      Except.ok (db ++ [newDraftRow p pe])
    else
      Except.ok (updateFirstDraft p pe db)

/-- core.api_views.ProgressUpdateViewSet.save_draft, on the authorised
path. The quarter-lock gate parses the raw period_end string with
datetime.fromisoformat inside a try/except that passes: only when that
strict parse succeeds is the lock consulted (HTTP 423); when it raises,
for example on a non-zero-padded date the serializer still accepts, the
check is silently skipped and the save proceeds to validation and upsert.
The database is the list of ProgressUpdate rows. -/
def save_draft (cfg : QuarterLockConfig) (fin_year : FinancialYear) (today : Date)
    (p : DraftPayload) (db : List ProgressUpdate) :
    Except DraftError (List ProgressUpdate) :=
  match fromisoformatDate p.period_end with
  | some period_end_dt =>
    if is_period_locked cfg fin_year period_end_dt today then
      Except.error DraftError.locked
    else
      save_draft_upsert p db
  | none => save_draft_upsert p db

/-- core.views.update_wizard_view, POST path with a valid form: the lock
check runs on the form-cleaned period_end date (no string gate here); in a
locked quarter a form error is recorded and no save happens (modelled as
the locked error), else the new row is saved with is_submitted true. -/
def update_wizard_save (cfg : QuarterLockConfig) (fin_year : FinancialYear) (today : Date)
    (period_end : Date) (upd : ProgressUpdate) (db : List ProgressUpdate) :
    Except DraftError (List ProgressUpdate) :=
  if is_period_locked cfg fin_year period_end today then
    Except.error DraftError.locked
  else
    Except.ok (db ++ [{ upd with is_submitted := true }])

/-- The end of the first quarter of a financial year: start plus three
months minus a day, clamped to the year end. -/
def firstQuarterEnd (fy : FinancialYear) : Date :=
  let q_end := addDays (addMonths fy.start_date 3) (-1)
  if Date.lt fy.end_date q_end then fy.end_date else q_end

/- Concrete fixtures used by the witnesses and concrete instances. -/

/-- The 2024/25 South African financial year. -/
def fy2024 : FinancialYear := ⟨⟨2024, 4, 1⟩, ⟨2025, 3, 31⟩⟩

/-- A reference current date inside fy2024. -/
def d0 : Date := ⟨2024, 7, 1⟩

/-- May reporting row with actual 85 (AMBER against thresholds 95/80 and a
YTD target of 100). -/
def exU1 : ProgressUpdate := ⟨1, ⟨2024, 5, 1⟩, ⟨2024, 5, 31⟩, 85, true, true⟩

/-- June reporting row with actual 85 (AMBER). -/
def exU2 : ProgressUpdate := ⟨1, ⟨2024, 6, 1⟩, ⟨2024, 6, 30⟩, 85, true, true⟩

/-- A milestone target of 100 with two consecutive AMBER months. -/
def exTwoAmber : Target :=
  ⟨some 100, some ⟨2030, 1, 1⟩, "MILESTONE", 95, 80, [exU1, exU2]⟩

/-- April reporting row with actual 85 (AMBER). -/
def exGA1 : ProgressUpdate := ⟨1, ⟨2024, 4, 1⟩, ⟨2024, 4, 30⟩, 85, true, true⟩

/-- May reporting row with actual 100 (GREEN). -/
def exGreenU : ProgressUpdate := ⟨1, ⟨2024, 5, 1⟩, ⟨2024, 5, 31⟩, 100, true, true⟩

/-- June reporting row with actual 85 (AMBER). -/
def exGA3 : ProgressUpdate := ⟨1, ⟨2024, 6, 1⟩, ⟨2024, 6, 30⟩, 85, true, true⟩

/-- A milestone target of 100 with AMBER, GREEN, AMBER months: the GREEN
breaks the consecutive run. -/
def exGreenBreak : Target :=
  ⟨some 100, some ⟨2030, 1, 1⟩, "MILESTONE", 95, 80, [exGA1, exGreenU, exGA3]⟩

/-- A target whose only reporting row is soft-deleted: no active progress. -/
def exInactiveOnly : Target :=
  ⟨some 100, some ⟨2030, 1, 1⟩, "MILESTONE", 95, 80,
    [⟨1, ⟨2024, 5, 1⟩, ⟨2024, 5, 31⟩, 85, true, false⟩]⟩

/-- A partially constructed target with no value: its YTD target is zero. -/
def exNoValue : Target :=
  ⟨none, some ⟨2030, 1, 1⟩, "MILESTONE", 95, 80, [exU1]⟩

/- Theorems -/

/-- C5: is_period_locked returns false for every input when locking is
disabled; when enabled it returns true exactly when today is strictly
later than the quarter end plus grace_days (whose configured default is
14); with grace 14 and the quarter of 2024-04-15 in fy2024 (quarter end
2024-06-30), 13 days past the quarter end is not locked and 15 days past
it is locked. -/
theorem C5_is_period_locked_spec :
    (∀ (cfg : QuarterLockConfig) (fy : FinancialYear) (pe today : Date),
      cfg.enabled = false → is_period_locked cfg fy pe today = false) ∧
    (∀ (cfg : QuarterLockConfig) (fy : FinancialYear) (pe today : Date),
      cfg.enabled = true →
        (is_period_locked cfg fy pe today = true ↔
          Date.lt (addDays (quarter_end_for fy pe) cfg.grace_days) today = true)) ∧
    (({} : QuarterLockConfig).grace_days = 14 ∧ ({} : QuarterLockConfig).enabled = false) ∧
    is_period_locked ⟨true, 14⟩ fy2024 ⟨2024, 4, 15⟩
      (addDays (quarter_end_for fy2024 ⟨2024, 4, 15⟩) 13) = false ∧
    is_period_locked ⟨true, 14⟩ fy2024 ⟨2024, 4, 15⟩
      (addDays (quarter_end_for fy2024 ⟨2024, 4, 15⟩) 15) = true := by
  refine ⟨?_, ?_, ⟨rfl, rfl⟩, by decide, by decide⟩
  · intro cfg fy pe today h
    simp [is_period_locked, h]
  · intro cfg fy pe today h
    simp [is_period_locked, h]

/-- Witness for C5 at a concrete disabled configuration and at an enabled
configuration exactly at the grace boundary. -/
theorem C5_is_period_locked_spec_witness :
    is_period_locked ⟨false, 14⟩ fy2024 ⟨2024, 4, 15⟩ ⟨2026, 1, 1⟩ = false ∧
    is_period_locked ⟨true, 14⟩ fy2024 ⟨2024, 4, 15⟩ ⟨2024, 7, 15⟩ = true :=
  ⟨C5_is_period_locked_spec.1 ⟨false, 14⟩ fy2024 ⟨2024, 4, 15⟩ ⟨2026, 1, 1⟩ rfl,
   (C5_is_period_locked_spec.2.1 ⟨true, 14⟩ fy2024 ⟨2024, 4, 15⟩ ⟨2024, 7, 15⟩ rfl).mpr
     (by decide)⟩

/-- C6: compute_rag_from_percent uses the 95/80 default thresholds with no
target and the thresholds of the target otherwise, classifying GREEN at or
above green, AMBER at or above amber, RED below; in particular 95 is
GREEN, 80 is AMBER and 79.99 is RED under the defaults. -/
theorem C6_compute_rag_from_percent_spec :
    (∀ percent : ℚ,
      compute_rag_from_percent percent none =
        (if 95 ≤ percent then "GREEN" else if 80 ≤ percent then "AMBER" else "RED")) ∧
    (∀ (percent : ℚ) (t : Target),
      compute_rag_from_percent percent (some t) =
        (if t.green_threshold ≤ percent then "GREEN"
         else if t.amber_threshold ≤ percent then "AMBER" else "RED")) ∧
    compute_rag_from_percent 95 none = "GREEN" ∧
    compute_rag_from_percent 80 none = "AMBER" ∧
    compute_rag_from_percent (7999 / 100) none = "RED" := by
  refine ⟨fun percent => rfl, fun percent t => rfl, ?_, ?_, ?_⟩
  · simp [compute_rag_from_percent]
  · have h : ¬((95 : ℚ) ≤ 80) := by norm_num
    simp [compute_rag_from_percent, h]
  · have h1 : ¬((95 : ℚ) ≤ 7999 / 100) := by norm_num
    have h2 : ¬((80 : ℚ) ≤ 7999 / 100) := by norm_num
    simp [compute_rag_from_percent, h1, h2]

/-- C9: the ratio functions return zero on a zero denominator by contract:
compute_percent with a zero YTD target is zero for every actual value, and
compute_item_spend reports a zero spend percentage whenever the planned
budget (input cost plus output cost) is zero. -/
theorem C9_division_by_zero_contract :
    (∀ actual : ℚ, compute_percent actual 0 = 0) ∧
    (∀ (plan_item : OperationalPlanItem) (fin_year : FinancialYear) (as_of : Date),
      plan_item.input_cost.getD 0 + plan_item.output_cost.getD 0 = 0 →
      (compute_item_spend plan_item fin_year as_of).2.2 = 0) := by
  constructor
  · intro actual
    simp [compute_percent]
  · intro plan_item fin_year as_of h
    simp [compute_item_spend, h]

/-- Witness for C9 on a plan item with no recorded costs and a nonzero
actual ratio numerator. -/
theorem C9_division_by_zero_contract_witness :
    compute_percent 55 0 = 0 ∧
    (compute_item_spend ⟨none, some 0, []⟩ fy2024 d0).2.2 = 0 :=
  ⟨C9_division_by_zero_contract.1 55,
   C9_division_by_zero_contract.2 ⟨none, some 0, []⟩ fy2024 d0 (by norm_num)⟩

/-- The draft payload of the C4 failing input: a serializer-valid but not
zero-padded period_end string for a period in a locked quarter. -/
def exRawLockedP : DraftPayload := ⟨1, ⟨2024, 4, 1⟩, "2024-4-15", 10, false⟩

/-- C4 (code bug, evaluated at the failing input): with locking enabled
and grace 14, the quarter of 2024-04-15 is locked on 2024-07-15, the
serializer accepts the period_end string 2024-4-15, yet fromisoformat
rejects it, so the lock gate of save_draft is silently skipped and the
save succeeds, creating a row for the locked period instead of failing
with the locked (HTTP 423) error; the claim demands it never silently
succeed. -/
theorem C4_locked_period_silently_saved :
    is_period_locked ⟨true, 14⟩ fy2024 ⟨2024, 4, 15⟩ ⟨2024, 7, 15⟩ = true ∧
    parse_date "2024-4-15" = some ⟨2024, 4, 15⟩ ∧
    fromisoformatDate "2024-4-15" = none ∧
    save_draft ⟨true, 14⟩ fy2024 ⟨2024, 7, 15⟩ exRawLockedP [] =
      Except.ok [newDraftRow exRawLockedP ⟨2024, 4, 15⟩] ∧
    (newDraftRow exRawLockedP ⟨2024, 4, 15⟩).period_end = ⟨2024, 4, 15⟩ := by
  refine ⟨by decide, by decide, by decide, ?_, by decide⟩
  with_unfolding_all rfl

/-- The strict-ISO lock path of save_draft that shows the intended
behaviour the bug defeats: when the raw period_end does parse under
fromisoformat and its quarter is locked, the save is rejected with the
locked error and no database state is returned. -/
theorem save_draft_strict_iso_locked_rejected :
    ∀ (cfg : QuarterLockConfig) (fin_year : FinancialYear) (today : Date)
      (p : DraftPayload) (db : List ProgressUpdate) (d : Date),
      fromisoformatDate p.period_end = some d →
      is_period_locked cfg fin_year d today = true →
      save_draft cfg fin_year today p db = Except.error DraftError.locked := by
  intro cfg fin_year today p db d hp hl
  rw [save_draft, hp]
  simp [hl]

/-- Witness for the strict-ISO lock path at the padded form of the same
date: 2024-04-15 parses under fromisoformat and the locked save is
rejected. -/
theorem save_draft_strict_iso_locked_rejected_witness :
    save_draft ⟨true, 14⟩ fy2024 ⟨2024, 7, 15⟩ ⟨1, ⟨2024, 4, 1⟩, "2024-04-15", 10, false⟩ []
      = Except.error DraftError.locked :=
  save_draft_strict_iso_locked_rejected ⟨true, 14⟩ fy2024 ⟨2024, 7, 15⟩
    ⟨1, ⟨2024, 4, 1⟩, "2024-04-15", 10, false⟩ [] ⟨2024, 4, 15⟩ (by decide) (by decide)

/-- Adding zero months to a valid date is the identity (the day clamp does
not fire because the day already fits its month). -/
theorem addMonths_zero (d : Date) (h : Date.valid d = true) : addMonths d 0 = d := by
  obtain ⟨y, m, dd⟩ := d
  simp only [Date.valid, Bool.and_eq_true, decide_eq_true_eq] at h
  obtain ⟨⟨⟨h1, h2⟩, h3⟩, h4⟩ := h
  unfold addMonths
  have hy : ((((y : Nat) : Int) * 12 + (((m : Nat) : Int) - 1) + 0) / 12).toNat = y := by
    omega
  have hm : ((((y : Nat) : Int) * 12 + (((m : Nat) : Int) - 1) + 0) % 12 + 1).toNat = m := by
    omega
  simp only [hy, hm]
  have hd : min dd (daysInMonth y m) = dd := Nat.min_eq_left h4
  simp [hd]

/-- C1: a target with no active progress update is classified GREY by
Target.calculate_rag_status, never RED; and the other no-data branch of
the classification (a zero YTD target) is also GREY. -/
theorem C1_no_data_is_grey :
    ∀ (t : Target) (today : Date),
      (t.progress_updates.filter (fun u => u.is_active) = [] →
        t.calculate_rag_status today none = "GREY") ∧
      (∀ a : ℚ, t.ytd_target today = 0 → t.calculate_rag_status today (some a) = "GREY") ∧
      (t.progress_updates.filter (fun u => u.is_active) = [] →
        t.calculate_rag_status today none ≠ "RED") := by
  intro t today
  have hgrey : t.progress_updates.filter (fun u => u.is_active) = [] →
      t.calculate_rag_status today none = "GREY" := by
    intro h
    simp [Target.calculate_rag_status, Target.get_latest_progress, h, latestByPeriodEnd]
  refine ⟨hgrey, ?_, ?_⟩
  · intro a h
    simp [Target.calculate_rag_status, h]
  · intro h
    rw [hgrey h]
    decide

/-- Witness for C1: a target whose only row is inactive is GREY, and a
target with no value (zero YTD target) is GREY for an explicit actual. -/
theorem C1_no_data_is_grey_witness :
    Target.calculate_rag_status exInactiveOnly d0 none = "GREY" ∧
    Target.calculate_rag_status exNoValue d0 (some 55) = "GREY" :=
  ⟨(C1_no_data_is_grey exInactiveOnly d0).1 (by decide),
   (C1_no_data_is_grey exNoValue d0).2.1 55 (by decide)⟩

/-- C7: ytd_target_value prorates by periodicity: MONTHLY gives value/12
times the elapsed months, QUARTERLY value/4 times the elapsed quarters,
ANNUAL scales the value by elapsed days over total days of the year with
elapsed days equal to (min(as_of, fy.end) - fy.start).days + 1, and any
other periodicity (MILESTONE included) yields the full value. -/
theorem C7_ytd_target_value_spec :
    ∀ (t : Target) (fin_year : FinancialYear) (as_of : Date) (v : ℚ),
      t.value = some v →
      (t.periodicity = "MONTHLY" →
        ytd_target_value t fin_year as_of =
          some (v / 12 * ((months_elapsed fin_year as_of : Int) : ℚ))) ∧
      (t.periodicity = "QUARTERLY" →
        ytd_target_value t fin_year as_of =
          some (v / 4 * ((quarters_elapsed fin_year as_of : Int) : ℚ))) ∧
      (t.periodicity = "ANNUAL" →
        ytd_target_value t fin_year as_of =
          some (if (daysBetween fin_year.end_date fin_year.start_date + 1 : Int) == 0 then 0
            else v *
                ((daysBetween (minDate fin_year.end_date as_of) fin_year.start_date + 1 : Int) : ℚ) /
                ((daysBetween fin_year.end_date fin_year.start_date + 1 : Int) : ℚ))) ∧
      (t.periodicity ≠ "ANNUAL" → t.periodicity ≠ "MONTHLY" → t.periodicity ≠ "QUARTERLY" →
        ytd_target_value t fin_year as_of = some v) := by
  intro t fin_year as_of v hv
  refine ⟨?_, ?_, ?_, ?_⟩
  · intro hp
    simp [ytd_target_value, hv, hp]
  · intro hp
    simp [ytd_target_value, hv, hp]
  · intro hp
    simp only [ytd_target_value, hv, hp, Option.map_some]
    norm_num
  · intro h1 h2 h3
    simp [ytd_target_value, hv, beq_eq_false_iff_ne.mpr h1, beq_eq_false_iff_ne.mpr h2,
      beq_eq_false_iff_ne.mpr h3]

/-- A monthly target of 100 with no history, used as the C7 witness. -/
def exMonthlyT : Target := ⟨some 100, some ⟨2030, 1, 1⟩, "MONTHLY", 95, 80, []⟩

/-- Witness for C7: the monthly proration at 2024-07-01 in fy2024 (four
elapsed months). -/
theorem C7_ytd_target_value_spec_witness :
    ytd_target_value exMonthlyT fy2024 d0 =
      some ((100 : ℚ) / 12 * ((months_elapsed fy2024 d0 : Int) : ℚ)) :=
  (C7_ytd_target_value_spec exMonthlyT fy2024 d0 100 rfl).1 rfl

/-- C8: before the financial year starts months_elapsed is 0 and
quarter_end_for is the first quarter end; otherwise months_elapsed is the
1-indexed month ordinal of as_of clamped to the year end; quarters_elapsed
is the ceiling of months/3 clamped to 4; and concretely the quarter of
2024-04-15 in fy2024 ends 2024-06-30. -/
theorem C8_calendar_engine_spec :
    (∀ (fy : FinancialYear) (as_of : Date),
      Date.lt as_of fy.start_date = true →
        months_elapsed fy as_of = 0 ∧
        (Date.valid fy.start_date = true → quarter_end_for fy as_of = firstQuarterEnd fy)) ∧
    (∀ (fy : FinancialYear) (as_of : Date),
      Date.lt as_of fy.start_date = false →
        months_elapsed fy as_of =
          monthsBetween (if Date.lt fy.end_date as_of then fy.end_date else as_of)
            fy.start_date + 1) ∧
    (∀ (fy : FinancialYear) (as_of : Date),
      quarters_elapsed fy as_of = min 4 ((months_elapsed fy as_of + 2) / 3)) ∧
    (∀ (fy : FinancialYear) (as_of : Date),
      0 < months_elapsed fy as_of →
        3 * ((months_elapsed fy as_of + 2) / 3 - 1) < months_elapsed fy as_of ∧
        months_elapsed fy as_of ≤ 3 * ((months_elapsed fy as_of + 2) / 3)) ∧
    quarter_end_for fy2024 ⟨2024, 4, 15⟩ = ⟨2024, 6, 30⟩ := by
  refine ⟨?_, ?_, fun fy as_of => rfl, ?_, by decide⟩
  · intro fy as_of h
    constructor
    · simp [months_elapsed, months_elapsed_in_fy, h]
    · intro hv
      simp only [quarter_end_for, months_elapsed_in_fy, h, if_true]
      norm_num [firstQuarterEnd, addMonths_zero fy.start_date hv]
  · intro fy as_of h
    simp [months_elapsed, months_elapsed_in_fy, h]
  · intro fy as_of h
    omega

/-- Witness for C8: fy2024 with an as_of before the year and one inside it. -/
theorem C8_calendar_engine_spec_witness :
    (months_elapsed fy2024 ⟨2024, 3, 1⟩ = 0 ∧
      quarter_end_for fy2024 ⟨2024, 3, 1⟩ = firstQuarterEnd fy2024) ∧
    (3 * ((months_elapsed fy2024 d0 + 2) / 3 - 1) < months_elapsed fy2024 d0 ∧
      months_elapsed fy2024 d0 ≤ 3 * ((months_elapsed fy2024 d0 + 2) / 3)) :=
  ⟨⟨(C8_calendar_engine_spec.1 fy2024 ⟨2024, 3, 1⟩ (by decide)).1,
    (C8_calendar_engine_spec.1 fy2024 ⟨2024, 3, 1⟩ (by decide)).2 (by decide)⟩,
   C8_calendar_engine_spec.2.2.2.1 fy2024 d0 (by decide)⟩

/-- A left fold that adds one per passing element and resets to zero on a
failing element computes the length of the maximal passing suffix. -/
theorem foldlResetCount_eq {α : Type} (f : α → Bool) (l : List α) :
    l.foldl (fun c v => if f v then c + 1 else 0) 0 = (l.reverse.takeWhile f).length := by
  induction l using List.reverseRecOn with
  | nil => rfl
  | append_singleton l a ih =>
    rw [List.foldl_append, List.reverse_append]
    simp only [List.foldl_cons, List.foldl_nil, List.reverse_singleton, List.singleton_append,
      List.takeWhile_cons]
    by_cases h : f a = true
    · simp [h, ih]
    · simp [h]

/-- The consecutive RED/AMBER walk equals the length of the maximal
trailing run of RED/AMBER rows (everything after the last GREEN/GREY). -/
theorem consecRedAmberCount_eq_trailing (t : Target) (today : Date)
    (l : List ProgressUpdate) :
    consecRedAmberCount t today l =
      (l.reverse.takeWhile (fun u =>
        ragIsRedAmber (t.calculate_rag_status today (some u.actual_value)))).length :=
  foldlResetCount_eq _ l

/-- C2: is_evidence_required is false whenever the own RAG of the update is
not RED or AMBER, and otherwise holds exactly when the trailing run of
consecutive RED/AMBER rows (the counter resets on a GREEN) among the
active rows with period_end in the n-month window ending at the update
reaches n; concretely with n = 2 two consecutive AMBER months require
evidence on the second but not the first, and a GREEN inserted between two
AMBER months resets the counter so no evidence is required. -/
theorem C2_evidence_escalation_spec :
    (∀ (t : Target) (today : Date) (n : Nat) (u : ProgressUpdate),
      (ragIsRedAmber (t.calculate_rag_status today (some u.actual_value)) = false →
        ProgressUpdate.is_evidence_required t today n u = false) ∧
      (ProgressUpdate.is_evidence_required t today n u = true ↔
        ragIsRedAmber (t.calculate_rag_status today (some u.actual_value)) = true ∧
          n ≤ ((sortByPeriodEnd (t.progress_updates.filter (fun v =>
                  v.is_active && Date.le (addMonths u.period_end (-(n : Int))) v.period_end &&
                    Date.le v.period_end u.period_end))).reverse.takeWhile (fun v =>
                ragIsRedAmber (t.calculate_rag_status today (some v.actual_value)))).length)) ∧
    ProgressUpdate.is_evidence_required exTwoAmber d0 2 exU2 = true ∧
    ProgressUpdate.is_evidence_required exTwoAmber d0 2 exU1 = false ∧
    ProgressUpdate.is_evidence_required exGreenBreak d0 2 exGA3 = false := by
  refine ⟨?_, by with_unfolding_all decide, by with_unfolding_all decide,
    by with_unfolding_all decide⟩
  intro t today n u
  constructor
  · intro h
    simp [ProgressUpdate.is_evidence_required, h]
  · rw [ProgressUpdate.is_evidence_required]
    by_cases h : ragIsRedAmber (t.calculate_rag_status today (some u.actual_value)) = true
    · simp only [h, if_true, decide_eq_true_eq, consecRedAmberCount_eq_trailing, true_and]
    · rw [Bool.not_eq_true] at h
      simp [h]

/-- Witness for C2: an update whose own RAG is GREEN never requires
evidence. -/
theorem C2_evidence_escalation_spec_witness :
    ProgressUpdate.is_evidence_required exGreenBreak d0 2 exGreenU = false :=
  (C2_evidence_escalation_spec.1 exGreenBreak d0 2 exGreenU).1
    (by with_unfolding_all decide)

/-- A row whose natural key differs from the draft key never matches the
existing-draft lookup filter. -/
theorem matchesDraftKey_false (tid : Nat) (ps pe : Date) (r : ProgressUpdate)
    (h : ¬(r.target_id = tid ∧ r.period_start = ps ∧ r.period_end = pe)) :
    matchesDraftKey tid ps pe r = false := by
  by_contra hb
  rw [Bool.not_eq_false] at hb
  simp only [matchesDraftKey, Bool.and_eq_true, beq_iff_eq, Bool.not_eq_true'] at hb
  exact h ⟨hb.1.1.1.1, hb.1.1.1.2, hb.1.1.2⟩

/-- A matching row is unsubmitted and active. -/
theorem matchesDraftKey_fields (tid : Nat) (ps pe : Date) (r : ProgressUpdate)
    (h : matchesDraftKey tid ps pe r = true) :
    r.target_id = tid ∧ r.period_start = ps ∧ r.period_end = pe ∧
      r.is_submitted = false ∧ r.is_active = true := by
  simp only [matchesDraftKey, Bool.and_eq_true, beq_iff_eq, Bool.not_eq_true'] at h
  exact ⟨h.1.1.1.1, h.1.1.1.2, h.1.1.2, h.1.2, h.2⟩

/-- A successful save reached the validation-and-upsert stage and returned
its result: the lock gate either errors or passes through. -/
theorem save_draft_ok_to_upsert (cfg : QuarterLockConfig) (fin_year : FinancialYear)
    (today : Date) (p : DraftPayload) (db db2 : List ProgressUpdate)
    (hs : save_draft cfg fin_year today p db = Except.ok db2) :
    save_draft_upsert p db = Except.ok db2 := by
  rw [save_draft] at hs
  split at hs
  · split at hs
    · cases hs
    · exact hs
  · exact hs

/-- The in-place update skips every leading row that does not match and
rewrites the remainder. -/
theorem updateFirstDraft_append (p : DraftPayload) (pe : Date) (db l : List ProgressUpdate)
    (h : ∀ r ∈ db, matchesDraftKey p.target_id p.period_start pe r = false) :
    updateFirstDraft p pe (db ++ l) = db ++ updateFirstDraft p pe l := by
  induction db with
  | nil => simp
  | cons r rs ih =>
    rw [List.cons_append, updateFirstDraft, h r (List.mem_cons_self r rs)]
    simp only [Bool.false_eq_true, if_false, List.cons_append, List.cons.injEq, true_and]
    exact ih (fun x hx => h x (List.mem_cons_of_mem r hx))

/-- The in-place update never changes the sublist of submitted rows. -/
theorem updateFirstDraft_filter_submitted (p : DraftPayload) (pe : Date)
    (db : List ProgressUpdate) :
    (updateFirstDraft p pe db).filter (fun r => r.is_submitted) =
      db.filter (fun r => r.is_submitted) := by
  induction db with
  | nil => rfl
  | cons r rs ih =>
    rw [updateFirstDraft]
    by_cases h : matchesDraftKey p.target_id p.period_start pe r = true
    · rw [if_pos h]
      have hr : r.is_submitted = false := (matchesDraftKey_fields _ _ _ r h).2.2.2.1
      simp [List.filter_cons, hr, applyDraft]
    · rw [Bool.not_eq_true] at h
      simp only [h, Bool.false_eq_true, if_false]
      simp [List.filter_cons, ih]

/-- Every row produced by the in-place update that was not already in the
database is unsubmitted. -/
theorem mem_updateFirstDraft_not_submitted (p : DraftPayload) (pe : Date)
    (db : List ProgressUpdate) (r : ProgressUpdate)
    (hr : r ∈ updateFirstDraft p pe db) (hn : r ∉ db) :
    r.is_submitted = false := by
  induction db with
  | nil => cases hr
  | cons x xs ih =>
    rw [updateFirstDraft] at hr
    by_cases h : matchesDraftKey p.target_id p.period_start pe x = true
    · rw [if_pos h] at hr
      rcases List.mem_cons.mp hr with h1 | h2
      · rw [h1]; rfl
      · exact absurd (List.mem_cons_of_mem x h2) hn
    · rw [Bool.not_eq_true] at h
      simp only [h, Bool.false_eq_true, if_false] at hr
      rcases List.mem_cons.mp hr with h1 | h2
      · exact absurd (h1 ▸ List.mem_cons_self x xs) hn
      · exact ih h2 (fun hm => hn (List.mem_cons_of_mem x hm))

/-- A row of the database either survives the in-place update untouched or
was an unsubmitted active row (the only rows the lookup filter matches). -/
theorem mem_updateFirstDraft_of_mem (p : DraftPayload) (pe : Date)
    (db : List ProgressUpdate) (r : ProgressUpdate) (hr : r ∈ db) :
    r ∈ updateFirstDraft p pe db ∨ (r.is_submitted = false ∧ r.is_active = true) := by
  induction db with
  | nil => cases hr
  | cons x xs ih =>
    rw [updateFirstDraft]
    by_cases h : matchesDraftKey p.target_id p.period_start pe x = true
    · rw [if_pos h]
      rcases List.mem_cons.mp hr with h1 | h2
      · have hf := matchesDraftKey_fields _ _ _ x h
        exact Or.inr ⟨h1 ▸ hf.2.2.2.1, h1 ▸ hf.2.2.2.2⟩
      · exact Or.inl (List.mem_cons_of_mem _ h2)
    · rw [Bool.not_eq_true] at h
      simp only [h, Bool.false_eq_true, if_false]
      rcases List.mem_cons.mp hr with h1 | h2
      · exact Or.inl (h1 ▸ List.mem_cons_self x _)
      · rcases ih h2 with hm | hp
        · exact Or.inl (List.mem_cons_of_mem _ hm)
        · exact Or.inr hp

/-- C10: a successful draft autosave leaves the sublist of submitted rows
exactly unchanged (it never modifies a submitted row), every row it
created or rewrote is unsubmitted regardless of the client payload, and
any row it did not carry over unchanged was an unsubmitted active row:
the in-place update only ever matches rows with is_submitted false and
is_active true. -/
theorem C10_draft_autosave_invariant :
    ∀ (cfg : QuarterLockConfig) (fin_year : FinancialYear) (today : Date)
      (p : DraftPayload) (db db2 : List ProgressUpdate),
      save_draft cfg fin_year today p db = Except.ok db2 →
      db2.filter (fun r => r.is_submitted) = db.filter (fun r => r.is_submitted) ∧
      (∀ r ∈ db2, r ∉ db → r.is_submitted = false) ∧
      (∀ r ∈ db, r ∈ db2 ∨ (r.is_submitted = false ∧ r.is_active = true)) := by
  intro cfg fin_year today p db db2 hs
  have hu := save_draft_ok_to_upsert cfg fin_year today p db db2 hs
  rw [save_draft_upsert] at hu
  split at hu
  · cases hu
  · rename_i pe hpd
    by_cases he : (db.filter (matchesDraftKey p.target_id p.period_start pe)).isEmpty = true
    · rw [if_pos he, Except.ok.injEq] at hu
      subst hu
      refine ⟨by simp [List.filter_append, newDraftRow], ?_, ?_⟩
      · intro r hr hn
        rcases List.mem_append.mp hr with h1 | h2
        · exact absurd h1 hn
        · rw [List.mem_singleton.mp h2]; rfl
      · exact fun r hr => Or.inl (List.mem_append_left _ hr)
    · rw [if_neg he, Except.ok.injEq] at hu
      subst hu
      exact ⟨updateFirstDraft_filter_submitted p pe db,
        fun r hr hn => mem_updateFirstDraft_not_submitted p pe db r hr hn,
        fun r hr => mem_updateFirstDraft_of_mem p pe db r hr⟩

/-- Payload of the first autosave in the C3 and C10 witnesses; the client
even claims is_submitted true, which the endpoint overrides. -/
def exP1 : DraftPayload := ⟨1, ⟨2024, 4, 1⟩, "2024-04-30", 10, true⟩

/-- Second autosave for the same period with a different actual value. -/
def exP2 : DraftPayload := ⟨1, ⟨2024, 4, 1⟩, "2024-04-30", 20, false⟩

/-- The serializer-parsed period_end of the witness payloads. -/
def exPe : Date := ⟨2024, 4, 30⟩

/-- A submitted active row of another target. -/
def exSubmittedRow : ProgressUpdate := ⟨2, ⟨2024, 4, 1⟩, ⟨2024, 4, 30⟩, 50, true, true⟩

/-- Witness for C10: autosaving over a database holding a submitted row
preserves that row and the created row is unsubmitted. -/
theorem C10_draft_autosave_invariant_witness :
    ([exSubmittedRow, newDraftRow exP1 exPe].filter (fun r => r.is_submitted) =
      [exSubmittedRow].filter (fun r => r.is_submitted)) ∧
    (∀ r ∈ [exSubmittedRow, newDraftRow exP1 exPe], r ∉ [exSubmittedRow] →
      r.is_submitted = false) ∧
    (∀ r ∈ [exSubmittedRow], r ∈ [exSubmittedRow, newDraftRow exP1 exPe] ∨
      (r.is_submitted = false ∧ r.is_active = true)) :=
  C10_draft_autosave_invariant ⟨false, 14⟩ fy2024 d0 exP1 [exSubmittedRow]
    [exSubmittedRow, newDraftRow exP1 exPe] (by with_unfolding_all rfl)

/-- C3: starting from a database with no row for the natural key, two
draft saves for the same (target, period_start, period_end) with different
actual values leave exactly one row for that key, and that row carries the
actual value of the second save: the second save updates the first draft
in place instead of creating a duplicate. -/
theorem C3_draft_upsert_idempotent :
    ∀ (cfg : QuarterLockConfig) (fin_year : FinancialYear) (today : Date)
      (p1 p2 : DraftPayload) (db db1 db2 : List ProgressUpdate) (pe : Date),
      p2.target_id = p1.target_id → p2.period_start = p1.period_start →
      p2.period_end = p1.period_end →
      parse_date p1.period_end = some pe →
      (∀ r ∈ db, ¬(r.target_id = p1.target_id ∧ r.period_start = p1.period_start ∧
        r.period_end = pe)) →
      save_draft cfg fin_year today p1 db = Except.ok db1 →
      save_draft cfg fin_year today p2 db1 = Except.ok db2 →
      (db2.filter (fun r => r.target_id == p1.target_id &&
        r.period_start == p1.period_start && r.period_end == pe)).length = 1 ∧
      (∀ r ∈ db2,
        r.target_id = p1.target_id → r.period_start = p1.period_start →
        r.period_end = pe → r.actual_value = p2.actual_value) := by
  intro cfg fin_year today p1 p2 db db1 db2 pe ht hps hpe hparse hkey hs1 hs2
  have hu1 := save_draft_ok_to_upsert cfg fin_year today p1 db db1 hs1
  have hu2 := save_draft_ok_to_upsert cfg fin_year today p2 db1 db2 hs2
  have hkeys1 : ∀ r ∈ db, matchesDraftKey p1.target_id p1.period_start pe r = false :=
    fun r hr => matchesDraftKey_false _ _ _ r (hkey r hr)
  have hfilter1 : db.filter (matchesDraftKey p1.target_id p1.period_start pe) = [] :=
    List.filter_eq_nil_iff.mpr (fun r hr => by rw [hkeys1 r hr]; exact Bool.false_ne_true)
  have hparse2 : parse_date p2.period_end = some pe := by rw [hpe]; exact hparse
  simp only [save_draft_upsert, hparse, hfilter1, List.isEmpty_nil, if_true,
    Except.ok.injEq] at hu1
  subst hu1
  have hmatch : matchesDraftKey p1.target_id p1.period_start pe (newDraftRow p1 pe) = true := by
    simp [matchesDraftKey, newDraftRow]
  have hfilter2 : (db ++ [newDraftRow p1 pe]).filter
      (matchesDraftKey p1.target_id p1.period_start pe) = [newDraftRow p1 pe] := by
    rw [List.filter_append, hfilter1, List.nil_append]
    simp [List.filter_cons, hmatch]
  simp only [save_draft_upsert, hparse2, ht, hps, hfilter2, List.isEmpty_cons,
    Bool.false_eq_true, if_false, Except.ok.injEq] at hu2
  have hupd : updateFirstDraft p2 pe (db ++ [newDraftRow p1 pe]) =
      db ++ [applyDraft p2 pe (newDraftRow p1 pe)] := by
    rw [updateFirstDraft_append p2 pe db [newDraftRow p1 pe]
      (fun r hr => by rw [ht, hps]; exact hkeys1 r hr)]
    rw [updateFirstDraft]
    rw [ht, hps, hmatch]
    simp
  rw [hupd] at hu2
  subst hu2
  have happlied : (applyDraft p2 pe (newDraftRow p1 pe)).target_id = p1.target_id ∧
      (applyDraft p2 pe (newDraftRow p1 pe)).period_start = p1.period_start ∧
      (applyDraft p2 pe (newDraftRow p1 pe)).period_end = pe ∧
      (applyDraft p2 pe (newDraftRow p1 pe)).actual_value = p2.actual_value := by
    simp [applyDraft, newDraftRow, ht, hps]
  constructor
  · rw [List.filter_append]
    have hdbnil : db.filter (fun r => r.target_id == p1.target_id &&
        r.period_start == p1.period_start && r.period_end == pe) = [] := by
      refine List.filter_eq_nil_iff.mpr (fun r hr hb => ?_)
      simp only [Bool.and_eq_true, beq_iff_eq] at hb
      exact hkey r hr ⟨hb.1.1, hb.1.2, hb.2⟩
    rw [hdbnil, List.nil_append]
    simp [List.filter_cons, happlied.1, happlied.2.1, happlied.2.2.1]
  · intro r hr h1 h2 h3
    rcases List.mem_append.mp hr with hmem | hmem
    · exact absurd ⟨h1, h2, h3⟩ (hkey r hmem)
    · rw [List.mem_singleton.mp hmem]
      exact happlied.2.2.2

/-- Witness for C3: two autosaves of the same April period with values 10
then 20 over an empty database leave one row for the key holding 20. -/
theorem C3_draft_upsert_idempotent_witness :
    (([applyDraft exP2 exPe (newDraftRow exP1 exPe)].filter
      (fun r => r.target_id == exP1.target_id && r.period_start == exP1.period_start &&
        r.period_end == exPe)).length = 1) ∧
    (∀ r ∈ [applyDraft exP2 exPe (newDraftRow exP1 exPe)],
      r.target_id = exP1.target_id → r.period_start = exP1.period_start →
      r.period_end = exPe → r.actual_value = exP2.actual_value) :=
  C3_draft_upsert_idempotent ⟨false, 14⟩ fy2024 d0 exP1 exP2 [] [newDraftRow exP1 exPe]
    [applyDraft exP2 exPe (newDraftRow exP1 exPe)] exPe rfl rfl rfl (by decide) (by simp)
    (by with_unfolding_all rfl) (by with_unfolding_all rfl)

end SMon
